import Mathlib

/-!
Verification of `dhan_websocket_alert_bot.py`: a shallow embedding of the
feed-message normalization, alert throttling/delivery, and the reconnecting
feed loop, together with theorems settling the specification claims.

Modelling conventions:
* Python values reaching the message handler are embedded as `PyVal`.
  Machine floats are idealized as exact rationals plus explicit non-finite
  values (`FloatVal`); IEEE rounding/overflow is not modelled (no claim
  exercises it).
* Wall-clock times are rationals. Each call to `time.time()` in the source
  is a separate input (`SendEnv.now` for the entry read, `SendEnv.sendTime`
  for the read after the successful POST).
* The network is an input: `DeliveryResult` is either an HTTP response with
  a status code (the `requests` library defines `resp.ok` as `status < 400`)
  or a raised transport error (which the source catches).
* `json.loads` is not re-implemented: an inbound bytes/str message carries
  its decode result (`Message.rawUndecodable` / `Message.rawDecoded`);
  `Message.structured` embeds messages that are not bytes/str.
-/

namespace DhanBot

/-- A Python float value: an exact rational, NaN, or ±infinity. -/
inductive FloatVal where
  | finite (q : ℚ)
  | nan
  | inf (neg : Bool)
deriving DecidableEq

/-- Python values as seen by the message handler. `pobj` is an
attribute-style object (SDK message objects); its list models the
`hasattr`/`getattr` surface. -/
inductive PyVal where
  | pnone
  | pbool (b : Bool)
  | pint (n : ℤ)
  | pfloat (v : FloatVal)
  | pstr (s : String)
  | pdict (kvs : List (String × PyVal))
  | plist (xs : List PyVal)
  | pobj (attrs : List (String × PyVal))

/-- Python truthiness (`bool(x)`): None/0/0.0/""/empty containers are falsy;
NaN and infinities are truthy. -/
def pyTruthy : PyVal → Bool
  | .pnone => false
  | .pbool b => b
  | .pint n => n != 0
  | .pfloat (.finite q) => q != 0
  | .pfloat .nan => true
  | .pfloat (.inf _) => true
  | .pstr s => s != ""
  | .pdict kvs => !kvs.isEmpty
  | .plist xs => !xs.isEmpty
  | .pobj _ => true

/-- Python `a or b`: `a` if truthy, else `b`. -/
def pyOr (a b : PyVal) : PyVal := if pyTruthy a then a else b

/-- `dict` lookup (keys are unique in a Python dict; first pair wins). -/
def dictLookup : List (String × PyVal) → String → Option PyVal
  | [], _ => none
  | (k, v) :: rest, key => if k = key then some v else dictLookup rest key

/-- `dict.get(key)`: `None` when the key is absent. -/
def dictGet (kvs : List (String × PyVal)) (key : String) : PyVal :=
  (dictLookup kvs key).getD .pnone

/-- Decimal digits of `n`, most significant first; `fuel` bounds recursion
(`fuel = n + 1` always suffices). -/
def natToDigitsAux : ℕ → ℕ → List Char
  | 0, _ => []
  | fuel + 1, n =>
    if n < 10 then [Char.ofNat (48 + n)]
    else natToDigitsAux fuel (n / 10) ++ [Char.ofNat (48 + n % 10)]

/-- Decimal rendering of a natural number (Python `str(n)` for `n ≥ 0`). -/
def natRepr (n : ℕ) : String := ⟨natToDigitsAux (n + 1) n⟩

/-- Decimal rendering of an integer (Python `str(n)`). -/
def intRepr : ℤ → String
  | .ofNat m => natRepr m
  | .negSucc m => "-" ++ natRepr (m + 1)

/-- Python `str(x)`. Exact for None/bool/int/str and for the non-finite
floats; the renderings of finite floats and containers are approximations
(no claim depends on them — ids are ints or strings in every claim). -/
def pyStr : PyVal → String
  | .pnone => "None"
  | .pbool b => if b then "True" else "False"
  | .pint n => intRepr n
  | .pfloat (.finite q) =>
    if q.den = 1 then intRepr q.num ++ ".0" else intRepr q.num ++ "/" ++ natRepr q.den
  | .pfloat .nan => "nan"
  | .pfloat (.inf neg) => if neg then "-inf" else "inf"
  | .pstr s => s
  | .pdict _ => "\x7b...\x7d"
  | .plist _ => "[...]"
  | .pobj _ => "<object>"

/-- Numeric value of a digit list (most significant first). -/
def digitsToNat (cs : List Char) : ℕ :=
  cs.foldl (fun a c => a * 10 + (c.toNat - 48)) 0

/-- Split a leading run of ASCII digits from the rest. -/
def takeDigits : List Char → List Char × List Char
  | [] => ([], [])
  | c :: cs =>
    if c.isDigit then
      let p := takeDigits cs
      (c :: p.1, p.2)
    else ([], c :: cs)

/-- Parse an optionally signed digit run that must consume all input
(the exponent of a float literal). -/
def parseSignedDigits (cs : List Char) : Option ℤ :=
  let p : ℤ × List Char :=
    match cs with
    | '+' :: r => (1, r)
    | '-' :: r => (-1, r)
    | r => (1, r)
  let d := takeDigits p.2
  if d.1.isEmpty ∨ ¬ d.2.isEmpty then none else some (p.1 * digitsToNat d.1)

/-- Parse the optional exponent suffix (input already lower-cased). -/
def parseExponent : List Char → Option ℤ
  | [] => some 0
  | 'e' :: cs => parseSignedDigits cs
  | _ => none

/-- Parse an unsigned decimal mantissa with optional fraction and exponent,
consuming all input. -/
def parseDecimal (cs : List Char) : Option ℚ :=
  let ip := takeDigits cs
  let fp : List Char × List Char :=
    match ip.2 with
    | '.' :: r => takeDigits r
    | r => ([], r)
  if ip.1.isEmpty ∧ fp.1.isEmpty then none
  else
    match parseExponent fp.2 with
    | none => none
    | some e =>
      let mant : ℚ := (digitsToNat ip.1 : ℚ) + (digitsToNat fp.1 : ℚ) / ((10 : ℚ) ^ fp.1.length)
      some (mant * (10 : ℚ) ^ e)

/-- Python `float(s)` on a string: accepts decimal literals and the
case-insensitive forms nan/inf/infinity, with surrounding whitespace
(digit-group underscores are not modelled). `none` models the raised
`ValueError`. -/
def floatParse (s : String) : Option FloatVal :=
  let cs := s.trim.toLower.toList
  let p : Bool × List Char :=
    match cs with
    | '+' :: r => (false, r)
    | '-' :: r => (true, r)
    | r => (false, r)
  if p.2 = ['n', 'a', 'n'] then some .nan
  else if p.2 = ['i', 'n', 'f'] ∨ p.2 = ['i', 'n', 'f', 'i', 'n', 'i', 't', 'y'] then
    some (.inf p.1)
  else
    match parseDecimal p.2 with
    | some q => some (.finite (if p.1 then -q else q))
    | none => none

/-- Python `float(x)` as used at line 119 of the source; `none` models the
exception the source catches (`except: ltp = None`). NaN and infinities
convert successfully — the source performs no finiteness check. -/
def pyFloat : PyVal → Option FloatVal
  | .pint n => some (.finite (n : ℚ))
  | .pfloat v => some v
  | .pbool b => some (.finite (if b then 1 else 0))
  | .pstr s => floatParse s
  | _ => none

/-- The nested containers probed at lines 100–106 of the source, in order. -/
def NESTED_KEYS : List String := ["data", "payload", "tick", "update"]

/-- Lines 100–106: the one-level nested fallback. For each container key in
order, when the value is a dict, fold in `sid or n.get("securityId") or
n.get("symbol")` and `ltp or n.get("lastTradedPrice") or n.get("ltp")`
(note: only two field names each, unlike the top level), breaking as soon
as the accumulated id is truthy. -/
def scanNested : List String → List (String × PyVal) → PyVal → PyVal → PyVal × PyVal
  | [], _, sid, ltp => (sid, ltp)
  | k :: rest, kvs, sid, ltp =>
    match dictGet kvs k with
    | .pdict n =>
      let sid2 := pyOr sid (pyOr (dictGet n "securityId") (dictGet n "symbol"))
      let ltp2 := pyOr ltp (pyOr (dictGet n "lastTradedPrice") (dictGet n "ltp"))
      if pyTruthy sid2 then (sid2, ltp2) else scanNested rest kvs sid2 ltp2
    | _ => scanNested rest kvs sid ltp

/-- `hasattr`/`getattr` surface of a value: only attribute-style objects
expose message attributes (str/int/list/None have none of the probed names). -/
def objAttrs : PyVal → List (String × PyVal)
  | .pobj a => a
  | _ => []

/-- Attribute lookup (`getattr`, with `hasattr` = `isSome`). -/
def attrFind : List (String × PyVal) → String → Option PyVal
  | [], _ => none
  | (k, v) :: rest, n => if k = n then some v else attrFind rest n

/-- Lines 108–113: `for attr in names: if hasattr(m, attr): x = getattr(m, attr)`.
There is no break, so the LAST present attribute wins; the accumulator starts
at `None`. -/
def attrScan (attrs : List (String × PyVal)) (names : List String) : PyVal :=
  names.foldl
    (fun acc n =>
      match attrFind attrs n with
      | some v => v
      | none => acc)
    .pnone

/-- Lines 94–113: raw (security_id, ltp) extraction. Dict messages use the
four-name `or`-chains at top level and the nested fallback; any other
message shape goes through the attribute loops. -/
def extractRaw : PyVal → PyVal × PyVal
  | .pdict kvs =>
    let sid := pyOr (dictGet kvs "securityId") (pyOr (dictGet kvs "symbol")
      (pyOr (dictGet kvs "security_id") (dictGet kvs "s")))
    let ltp := pyOr (dictGet kvs "lastTradedPrice") (pyOr (dictGet kvs "ltp")
      (pyOr (dictGet kvs "last_price") (dictGet kvs "last")))
    if pyTruthy sid then (sid, ltp) else scanNested NESTED_KEYS kvs sid ltp
  | m =>
    (attrScan (objAttrs m) ["securityId", "symbol", "security_id"],
     attrScan (objAttrs m) ["lastTradedPrice", "ltp", "last_price", "last"])

/-- An inbound message, with the `json.loads` outcome supplied by the
environment: bytes/str either fail to decode (the source's `except: pass`
leaves the string in place) or decode to a structured value; non-text
messages are passed through unchanged. -/
inductive Message where
  | rawUndecodable (s : String)
  | rawDecoded (v : PyVal)
  | structured (v : PyVal)

/-- Lines 87–92: the decode step of the handler. -/
def decodeMessage : Message → PyVal
  | .rawUndecodable s => .pstr s
  | .rawDecoded v => v
  | .structured v => v

/-- Lines 87–121 as a pure function: the Normalizer. Mirrors the source:
extract raw values, `str()` the id when truthy (line 116), convert the
price with `float()` when not None catching failures (lines 117–121), and
produce the tick only when the (string) id is truthy and the price is not
None (line 123). -/
def normalize (msg : Message) : Option (String × FloatVal) :=
  let m := decodeMessage msg
  let p := extractRaw m
  let security_id : PyVal := if pyTruthy p.1 then .pstr (pyStr p.1) else p.1
  let ltp : Option FloatVal :=
    match p.2 with
    | .pnone => none
    | x => pyFloat x
  match ltp with
  | some v => if pyTruthy security_id then some (pyStr security_id, v) else none
  | none => none

/-- Environment-supplied configuration (lines 26–31 of the source). The
Telegram variables are optional env strings; `HDFC_ID` defaults to "1333";
`SEND_INTERVAL_SECONDS` defaults to 60. -/
structure Config where
  TELEGRAM_BOT_TOKEN : Option String
  TELEGRAM_CHAT_ID : Option String
  HDFC_ID : String
  SEND_INTERVAL_SECONDS : ℤ
deriving DecidableEq

/-- Truthiness of an env variable: set and non-empty
(`if not TELEGRAM_BOT_TOKEN` is taken when the variable is unset or ""). -/
def truthyEnv : Option String → Bool
  | none => false
  | some s => s != ""

/-- Outcome of one `requests.post` call: an HTTP response (any status), or
a raised transport error. `requests` defines `resp.ok` as `status < 400`. -/
inductive DeliveryResult where
  | response (status : ℕ)
  | transportError
deriving DecidableEq

/-- How one call to `send_telegram_message` ended: skipped by the throttle
(line 57), skipped for missing Telegram envs (line 60), or an actual POST
attempt with its result. The function always returns normally — both the
non-ok branch and the transport error are swallowed (lines 76–79). -/
inductive SendOutcome where
  | throttled
  | missingCreds
  | attempted (r : DeliveryResult)
deriving DecidableEq

/-- The ambient inputs of one send: the `time.time()` read at entry
(line 53), the `time.time()` read after a successful POST (line 75), and
the network's behaviour for the POST. -/
structure SendEnv where
  now : ℚ
  sendTime : ℚ
  result : DeliveryResult
deriving DecidableEq

/-- `_last_sent.get(key, 0)` on the throttle map. -/
def lookupQ : List (String × ℚ) → String → ℚ → ℚ
  | [], _, d => d
  | (k, v) :: rest, key, d => if k = key then v else lookupQ rest key d

/-- Lines 52–79: `send_telegram_message`, with the `_last_sent` map passed
and returned explicitly. Order mirrors the source: throttle check first,
then the Telegram-env check, then the POST; `_last_sent[key]` is written
only in the `resp.ok` branch. `ltp_price` only feeds the message text,
whose formatting is not modelled. -/
def send_telegram_message (cfg : Config) (env : SendEnv) (st : List (String × ℚ))
    (security_id : String) (ltp_price : FloatVal) : List (String × ℚ) × SendOutcome :=
  let last := lookupQ st security_id 0
  if env.now - last < (cfg.SEND_INTERVAL_SECONDS : ℚ) then (st, .throttled)
  else if ¬ truthyEnv cfg.TELEGRAM_BOT_TOKEN ∨ ¬ truthyEnv cfg.TELEGRAM_CHAT_ID then
    (st, .missingCreds)
  else
    match env.result with
    | .response code =>
      if code < 400 then ((security_id, env.sendTime) :: st, .attempted (.response code))
      else (st, .attempted (.response code))
    | .transportError => (st, .attempted .transportError)

/-- The handler's mutable globals: `latest_ltp` and `_last_sent`
(new bindings shadow old ones; lookups take the first). -/
structure HState where
  latest_ltp : List (String × FloatVal)
  last_sent : List (String × ℚ)
deriving DecidableEq

/-- Record of the one `send_telegram_message` call a handled tick makes:
its key, price, `friendly_name` argument, and how it ended. -/
structure SendCall where
  key : String
  price : FloatVal
  friendly_name : Option String
  outcome : SendOutcome
deriving DecidableEq

/-- Lines 123–128: what the caller does with the Normalizer's output —
cache the price under the string key, then call the Notifier with
`friendly_name = "HDFC BANK"` iff the key equals `HDFC_ID`. -/
def applyTick (cfg : Config) (env : SendEnv) (st : HState) :
    Option (String × FloatVal) → HState × Option SendCall
  | none => (st, none)
  | some (sid, v) =>
    let fname : Option String := if sid = cfg.HDFC_ID then some "HDFC BANK" else none
    let r := send_telegram_message cfg env st.last_sent sid v
    (⟨(sid, v) :: st.latest_ltp, r.1⟩, some ⟨sid, v, fname, r.2⟩)

/-- Lines 85–130: the whole `market_feed_handler`, written out inline
(decode, extract, convert, cache, notify) as a state transformer. Inner
failures are already caught where the source catches them (`json.loads`,
`float`, the POST), so the outer `except` at line 129 has nothing to
swallow in the model and the function is total. -/
def market_feed_handler (cfg : Config) (env : SendEnv) (st : HState) (message : Message) :
    HState × Option SendCall :=
  let m := decodeMessage message
  let p := extractRaw m
  let security_id : PyVal := if pyTruthy p.1 then .pstr (pyStr p.1) else p.1
  let ltp : Option FloatVal :=
    match p.2 with
    | .pnone => none
    | x => pyFloat x
  match ltp with
  | some v =>
    if pyTruthy security_id then
      let fname : Option String :=
        if pyStr security_id = cfg.HDFC_ID then some "HDFC BANK" else none
      let r := send_telegram_message cfg env st.last_sent (pyStr security_id) v
      (⟨(pyStr security_id, v) :: st.latest_ltp, r.1⟩, some ⟨pyStr security_id, v, fname, r.2⟩)
    else (st, none)
  | none => (st, none)

/-- Line 32 of the source. -/
def INITIAL_BACKOFF : ℕ := 1

/-- Line 33 of the source. -/
def MAX_BACKOFF : ℕ := 60

/-- How one iteration of the `while True` loop in `start_market_feed`
(lines 465–521) plays out, as decided by the SDK/environment:
* `instFailed` — `instantiate_feed_simple` returned no feed (line 471);
* `noClassFallbackOk` — no feed class but `market_feed_wss` was invoked
  successfully (lines 477–486);
* `noClassNoFallback` — no feed class and no working fallback (line 489);
* `started runRaised` — `try_start_feed_instance` returned `started = True`;
  `runRaised` records whether `run_forever` raised a caught non-ValueError
  exception (line 405 returns `True, e` in that case too);
* `startedUnsupported` — started but with an "Unsupported version"
  ValueError (line 494);
* `notStarted` — `try_start_feed_instance` returned `started = False`
  (no runnable entrypoint, or `run_forever` raised a ValueError);
* `interrupt` — KeyboardInterrupt (SIGINT/SIGTERM raise SystemExit, also
  terminal);
* `loopError` — an unexpected exception reached the `except Exception`
  arm at line 516. -/
inductive IterEvent where
  | instFailed
  | noClassFallbackOk
  | noClassNoFallback
  | started (runRaised : Bool)
  | startedUnsupported
  | notStarted
  | interrupt
  | loopError
deriving DecidableEq

/-- Why `start_market_feed` returned. -/
inductive ExitReason where
  | missingDhanCreds
  | importFailed
  | instantiateFailed
  | noClassNoFallback
  | couldNotStart
  | interrupted
deriving DecidableEq

/-- Result of one loop iteration: exit, or continue after sleeping `delay`
seconds with a new backoff value. -/
inductive LoopStep where
  | exit (r : ExitReason)
  | cont (delay : ℚ) (backoff : ℕ)
deriving DecidableEq

/-- One iteration of the retry loop, following lines 465–521 exactly:
a started attempt (even one whose run call raised) RESETS the backoff to
`INITIAL_BACKOFF` and sleeps a fixed 1 second (lines 505–507); the
unsupported-version retry sleeps 0.5 s leaving backoff alone (line 503);
only the `except Exception` arm sleeps `min(MAX_BACKOFF, backoff)` and
doubles the backoff capped at `MAX_BACKOFF` (lines 518–521). -/
def loopStep (backoff : ℕ) : IterEvent → LoopStep
  | .instFailed => .exit .instantiateFailed
  | .noClassFallbackOk => .cont 1 backoff
  | .noClassNoFallback => .exit .noClassNoFallback
  | .started _ => .cont 1 INITIAL_BACKOFF
  | .startedUnsupported => .cont (1 / 2) backoff
  | .notStarted => .exit .couldNotStart
  | .interrupt => .exit .interrupted
  | .loopError =>
    .cont ((min MAX_BACKOFF backoff : ℕ) : ℚ)
      (min MAX_BACKOFF (if 0 < backoff then backoff * 2 else INITIAL_BACKOFF))

/-- Run the retry loop over a sequence of iteration events, collecting the
sleeps performed; returns (delays, final backoff, exit reason if the loop
returned within the given events). -/
def runLoop : ℕ → List IterEvent → List ℚ × ℕ × Option ExitReason
  | b, [] => ([], b, none)
  | b, e :: es =>
    match loopStep b e with
    | .exit r => ([], b, some r)
    | .cont d b2 =>
      let rest := runLoop b2 es
      (d :: rest.1, rest.2.1, rest.2.2)

/-- Lines 424–521: `start_market_feed`. Before any connection attempt only
`DHAN_CLIENT_ID`/`DHAN_ACCESS_TOKEN` are checked (line 425) and the
`dhanhq` import is attempted (lines 429–433); the Telegram variables are
NOT checked here. Returns the exit reason (none while still looping) and
the sleeps performed. -/
def start_market_feed (clientId accessToken : Option String) (importOk : Bool)
    (events : List IterEvent) : Option ExitReason × List ℚ :=
  if ¬ truthyEnv clientId ∨ ¬ truthyEnv accessToken then (some .missingDhanCreds, [])
  else if ¬ importOk then (some .importFailed, [])
  else
    let r := runLoop INITIAL_BACKOFF events
    (r.2.2, r.1)

/-- Modelled from the spec: the spec's field resolution — "checking, in
order, a fixed priority list of field names" — returns the value of the
first PRESENT field (used to state what the claims expect, to be compared
with what the source does). -/
def specResolveField (kvs : List (String × PyVal)) : List String → Option PyVal
  | [] => none
  | n :: rest =>
    match dictLookup kvs n with
    | some v => some v
    | none => specResolveField kvs rest

/-- The spec's id priority list. -/
def SPEC_ID_FIELDS : List String := ["securityId", "symbol", "security_id", "s"]

/-- The spec's price priority list. -/
def SPEC_PRICE_FIELDS : List String := ["lastTradedPrice", "ltp", "last_price", "last"]

/-- First present attribute in the given name order (what first-match-wins
attribute resolution would return); compare with `attrScan`, which is
last-match-wins. -/
def firstPresent (attrs : List (String × PyVal)) : List String → Option PyVal
  | [] => none
  | n :: rest =>
    match attrFind attrs n with
    | some v => some v
    | none => firstPresent attrs rest

/-- `runTicks cfg key price st envs`: feed a sequence of alert-worthy ticks
for one key through the Notifier, threading `_last_sent` and counting the
delivery attempts (outcomes that reached the POST). -/
def isAttempt : SendOutcome → Bool
  | .attempted _ => true
  | _ => false

/-- `runTicks cfg key price st envs`: feed a sequence of alert-worthy ticks
for one key through the Notifier, threading `_last_sent` and counting the
delivery attempts (outcomes that reached the POST). -/
def runTicks (cfg : Config) (key : String) (price : FloatVal) :
    List (String × ℚ) → List SendEnv → List (String × ℚ) × ℕ
  | st, [] => (st, 0)
  | st, e :: es =>
    let r := send_telegram_message cfg e st key price
    let rest := runTicks cfg key price r.1 es
    (rest.1, (if isAttempt r.2 then 1 else 0) + rest.2)

/-- A concrete configuration with both Telegram variables set and the
default `HDFC_ID`/interval, used by witnesses and counterexamples. -/
def cfgT : Config := ⟨some "bot-token", some "chat-id", "1333", 60⟩

/-- A tick whose `now` is still inside the throttle window is a no-op:
the Notifier returns before the env check and the POST. -/
theorem send_throttle_skip (cfg : Config) (env : SendEnv) (st : List (String × ℚ))
    (key : String) (price : FloatVal)
    (h : env.now - lookupQ st key 0 < (cfg.SEND_INTERVAL_SECONDS : ℚ)) :
    send_telegram_message cfg env st key price = (st, .throttled) := by
  simp [send_telegram_message, h]

/-- A run of ticks all inside the throttle window leaves `_last_sent`
unchanged and makes no delivery attempt. -/
theorem runTicks_throttled (cfg : Config) (key : String) (price : FloatVal)
    (st : List (String × ℚ)) (es : List SendEnv)
    (h : ∀ e ∈ es, e.now - lookupQ st key 0 < (cfg.SEND_INTERVAL_SECONDS : ℚ)) :
    runTicks cfg key price st es = (st, 0) := by
  induction es with
  | nil => rfl
  | cons e es ih =>
    have hs : send_telegram_message cfg e st key price = (st, .throttled) :=
      send_throttle_skip cfg e st key price (h e (List.mem_cons_self e es))
    simp only [runTicks, hs]
    simp [isAttempt, ih fun e' he' => h e' (List.mem_cons_of_mem e he')]

/-- C1: once a delivery for a key has succeeded, every further tick for the
same key arriving within less than `SEND_INTERVAL_SECONDS` of the first
tick is suppressed by the throttle: for a sequence of alert-worthy ticks
for one key (Telegram envs set, first tick past the throttle window, its
POST succeeding with HTTP 200 and its recorded send-timestamp no earlier
than its arrival, the rest arriving within the interval of the first),
exactly one delivery attempt is made, and `_last_sent[key]` holds the
first tick's recorded send time. -/
theorem c1_throttle_one_attempt
    (cfg : Config) (key : String) (price : FloatVal) (st : List (String × ℚ))
    (e0 : SendEnv) (rest : List SendEnv)
    (hbot : truthyEnv cfg.TELEGRAM_BOT_TOKEN = true)
    (hchat : truthyEnv cfg.TELEGRAM_CHAT_ID = true)
    (helig : (cfg.SEND_INTERVAL_SECONDS : ℚ) ≤ e0.now - lookupQ st key 0)
    (hok : e0.result = .response 200)
    (hmono : e0.now ≤ e0.sendTime)
    (hwin : ∀ e ∈ rest, e.now < e0.now + (cfg.SEND_INTERVAL_SECONDS : ℚ))
    (hallok : ∀ e ∈ rest, e.result = .response 200) :
    runTicks cfg key price st (e0 :: rest) = ((key, e0.sendTime) :: st, 1) := by
  have h1 : ¬ (e0.now - lookupQ st key 0 < (cfg.SEND_INTERVAL_SECONDS : ℚ)) := by
    push_neg
    linarith
  have hstep : send_telegram_message cfg e0 st key price
      = ((key, e0.sendTime) :: st, .attempted (.response 200)) := by
    simp [send_telegram_message, h1, hbot, hchat, hok]
  have hrest : runTicks cfg key price ((key, e0.sendTime) :: st) rest
      = ((key, e0.sendTime) :: st, 0) := by
    refine runTicks_throttled cfg key price _ rest fun e he => ?_
    have hw := hwin e he
    have hl : lookupQ ((key, e0.sendTime) :: st) key 0 = e0.sendTime := by
      simp [lookupQ]
    rw [hl]
    linarith
  simp only [runTicks, hstep, hrest]
  simp [isAttempt]

/-- Witness for C1 at a concrete input: interval 60, a fresh map, a first
tick at t=60 recorded at t=61, a second tick at t=100 (within the
interval): one attempt, map updated to 61. -/
theorem c1_witness :
    truthyEnv cfgT.TELEGRAM_BOT_TOKEN = true ∧
    (cfgT.SEND_INTERVAL_SECONDS : ℚ) ≤ (60 : ℚ) - lookupQ [] "1333" 0 ∧
    runTicks cfgT "1333" (.finite 1700) []
        [⟨60, 61, .response 200⟩, ⟨100, 101, .response 200⟩]
      = ([("1333", 61)], 1) := by
  refine ⟨by decide, by norm_num [lookupQ, cfgT], ?_⟩
  exact c1_throttle_one_attempt cfgT "1333" (.finite 1700) []
    ⟨60, 61, .response 200⟩ [⟨100, 101, .response 200⟩]
    (by decide) (by decide)
    (by norm_num [lookupQ, cfgT])
    rfl (by norm_num)
    (by intro e he; simp only [List.mem_singleton] at he; subst he; norm_num [cfgT])
    (by intro e he; simp only [List.mem_singleton] at he; subst he; rfl)

/-- C2 counterexample: the claim says a non-2xx status leaves `_last_sent`
unchanged, but `requests.Response.ok` is `status < 400`, so an HTTP 302
(non-2xx) response DOES record the send timestamp: from an empty map, an
eligible tick whose POST returns 302 updates `_last_sent`. -/
theorem c2_counterexample :
    send_telegram_message cfgT ⟨100, 101, .response 302⟩ [] "1333" (.finite 1700)
      = ([("1333", 101)], .attempted (.response 302)) ∧
    (200 ≤ 302 ∧ ¬ (302 < 300)) ∧
    ([("1333", 101)] : List (String × ℚ)) ≠ [] := by
  refine ⟨?_, by norm_num, by simp⟩
  norm_num [send_telegram_message, lookupQ, cfgT, truthyEnv]
  exact ⟨by decide, by decide⟩

/-- C2 (amended): the throttle timestamp is updated only when the POST
returns a response `requests` counts as ok (status < 400) — so 3xx
responses also update it. If the POST raises a transport error or returns
status ≥ 400, `_last_sent` is unchanged, the call still returns normally
(the source catches the exception), and a later tick for the same key —
even one within the interval of the failed attempt — is still eligible and
reaches the POST. -/
theorem c2_failed_delivery_keeps_throttle
    (cfg : Config) (key : String) (price : FloatVal) (st : List (String × ℚ))
    (e1 e2 : SendEnv)
    (hbot : truthyEnv cfg.TELEGRAM_BOT_TOKEN = true)
    (hchat : truthyEnv cfg.TELEGRAM_CHAT_ID = true)
    (helig : (cfg.SEND_INTERVAL_SECONDS : ℚ) ≤ e1.now - lookupQ st key 0)
    (hfail : e1.result = .transportError ∨ ∃ code, 400 ≤ code ∧ e1.result = .response code)
    (hlater : e1.now ≤ e2.now) :
    send_telegram_message cfg e1 st key price = (st, .attempted e1.result) ∧
    (send_telegram_message cfg e2 st key price).2 = .attempted e2.result := by
  have h1 : ¬ (e1.now - lookupQ st key 0 < (cfg.SEND_INTERVAL_SECONDS : ℚ)) := by
    push_neg
    linarith
  have h2 : ¬ (e2.now - lookupQ st key 0 < (cfg.SEND_INTERVAL_SECONDS : ℚ)) := by
    push_neg
    linarith
  constructor
  · rcases hfail with hr | ⟨code, hcode, hr⟩
    · simp [send_telegram_message, h1, hbot, hchat, hr]
    · simp [send_telegram_message, h1, hbot, hchat, hr, Nat.not_lt.mpr hcode]
  · rcases he2 : e2.result with code | _
    · by_cases hc : code < 400 <;>
        simp [send_telegram_message, h2, hbot, hchat, he2, hc]
    · simp [send_telegram_message, h2, hbot, hchat, he2]

/-- Witness for C2 (amended) at a concrete input: an eligible tick whose
POST returns HTTP 500 leaves the map unchanged, and a tick 5 seconds later
still reaches the POST. -/
theorem c2_witness :
    send_telegram_message cfgT ⟨100, 100, .response 500⟩ [] "1333" (.finite 1700)
      = ([], .attempted (.response 500)) ∧
    (send_telegram_message cfgT ⟨105, 105, .response 200⟩ [] "1333" (.finite 1700)).2
      = .attempted (.response 200) :=
  c2_failed_delivery_keeps_throttle cfgT "1333" (.finite 1700) []
    ⟨100, 100, .response 500⟩ ⟨105, 105, .response 200⟩
    (by decide) (by decide)
    (by norm_num [lookupQ, cfgT])
    (Or.inr ⟨500, by norm_num, rfl⟩)
    (by norm_num)

/-- A value with no attribute surface resolves nothing in the attribute
loops. -/
theorem attrScan_nil (names : List String) : attrScan [] names = .pnone := by
  induction names with
  | nil => rfl
  | cons n ns ih => simpa [attrScan, attrFind] using ih

/-- The `is not None` guard around `float()` is absorbed by `pyFloat`,
since `float(None)` also raises (is `none` in the model). -/
theorem guardFloat_eq (x : PyVal) :
    (match x with
      | PyVal.pnone => (none : Option FloatVal)
      | y => pyFloat y) = pyFloat x := by
  cases x <;> rfl

/-- `market_feed_handler` factors through the pure `normalize`: the whole
handler equals the caller-side `applyTick` applied to the Normalizer's
output. In particular the extraction phase reads and writes no state. -/
theorem handler_eq_applyTick (cfg : Config) (env : SendEnv) (st : HState) (msg : Message) :
    market_feed_handler cfg env st msg = applyTick cfg env st (normalize msg) := by
  unfold market_feed_handler normalize
  cases hv : (match (extractRaw (decodeMessage msg)).2 with
    | PyVal.pnone => (none : Option FloatVal)
    | y => pyFloat y) with
  | none => simp [hv, applyTick]
  | some v =>
    simp only [hv]
    by_cases hs : pyTruthy (if pyTruthy (extractRaw (decodeMessage msg)).1
        then PyVal.pstr (pyStr (extractRaw (decodeMessage msg)).1)
        else (extractRaw (decodeMessage msg)).1) = true
    · simp [hs, applyTick]
    · simp [hs, applyTick]

/-- C8: the Normalizer is pure — the handler is exactly the caller logic
(`applyTick`: cache write at line 124, Notifier call at line 126) applied
AFTER `normalize` returns, and when no tick is extracted neither
`latest_ltp` nor `_last_sent` changes and no delivery happens. -/
theorem c8_normalize_pure (cfg : Config) (env : SendEnv) (st : HState) (msg : Message) :
    market_feed_handler cfg env st msg = applyTick cfg env st (normalize msg) ∧
    (normalize msg = none →
      (market_feed_handler cfg env st msg).1 = st ∧
      (market_feed_handler cfg env st msg).2 = none) := by
  refine ⟨handler_eq_applyTick cfg env st msg, fun h => ?_⟩
  rw [handler_eq_applyTick cfg env st msg, h]
  exact ⟨rfl, rfl⟩

/-- Witness for C8 at a concrete input (an empty dict message: no tick). -/
theorem c8_witness :
    market_feed_handler cfgT ⟨0, 0, .response 200⟩ ⟨[], []⟩ (.structured (.pdict []))
      = applyTick cfgT ⟨0, 0, .response 200⟩ ⟨[], []⟩
          (normalize (.structured (.pdict []))) ∧
    (market_feed_handler cfgT ⟨0, 0, .response 200⟩ ⟨[], []⟩ (.structured (.pdict []))).1
      = ⟨[], []⟩ ∧
    (market_feed_handler cfgT ⟨0, 0, .response 200⟩ ⟨[], []⟩ (.structured (.pdict []))).2
      = none :=
  ⟨(c8_normalize_pure cfgT ⟨0, 0, .response 200⟩ ⟨[], []⟩ (.structured (.pdict []))).1,
   (c8_normalize_pure cfgT ⟨0, 0, .response 200⟩ ⟨[], []⟩ (.structured (.pdict []))).2 rfl⟩

/-- Opaque bytes/text that fail to decode stay a string, which has none of
the probed attributes: no tick. -/
theorem normalize_rawUndecodable (s : String) : normalize (.rawUndecodable s) = none := by
  simp [normalize, decodeMessage, extractRaw, objAttrs, attrScan_nil, pyTruthy]

/-- C9: message-level errors are isolated — the handler is a total function
(every raising operation the source wraps — `json.loads`, `float`, the
POST — is caught where the source catches it), a message that does not
normalize is skipped with no state change and no send, and malformed
non-JSON input never produces a tick. -/
theorem c9_no_escape (cfg : Config) (env : SendEnv) (st : HState) (msg : Message) :
    (normalize msg = none → market_feed_handler cfg env st msg = (st, none)) ∧
    (∀ s, normalize (.rawUndecodable s) = none) := by
  refine ⟨fun h => ?_, normalize_rawUndecodable⟩
  rw [handler_eq_applyTick cfg env st msg, h]
  rfl

/-- Witness for C9 at a concrete input (opaque non-JSON text). -/
theorem c9_witness :
    market_feed_handler cfgT ⟨0, 0, .transportError⟩ ⟨[], []⟩ (.rawUndecodable "junk")
      = (⟨[], []⟩, none) ∧
    normalize (.rawUndecodable "junk") = none :=
  ⟨(c9_no_escape cfgT ⟨0, 0, .transportError⟩ ⟨[], []⟩ (.rawUndecodable "junk")).1 rfl,
   (c9_no_escape cfgT ⟨0, 0, .transportError⟩ ⟨[], []⟩ (.rawUndecodable "junk")).2 "junk"⟩

theorem natToDigitsAux_ne_nil (fuel n : ℕ) : natToDigitsAux (fuel + 1) n ≠ [] := by
  unfold natToDigitsAux
  by_cases h : n < 10 <;> simp [h]

theorem natRepr_ne_empty (n : ℕ) : natRepr n ≠ "" := by
  unfold natRepr
  intro h
  rw [String.ext_iff] at h
  exact natToDigitsAux_ne_nil n n h

theorem intRepr_ne_empty (n : ℤ) : intRepr n ≠ "" := by
  cases n with
  | ofNat m => exact natRepr_ne_empty m
  | negSucc m =>
    intro h
    rw [String.ext_iff] at h
    simp [intRepr, String.data_append] at h

theorem pyTruthy_pnone : pyTruthy .pnone = false := rfl

theorem pyTruthy_pstr (s : String) : pyTruthy (.pstr s) = (s != "") := rfl

theorem pyStr_pstr (s : String) : pyStr (.pstr s) = s := rfl

/-- `str()` of a truthy value is a non-empty string, so the second
truthiness test at line 123 cannot fail once the first (line 115) passed. -/
theorem pyStr_ne_empty_of_truthy (v : PyVal) (h : pyTruthy v = true) : pyStr v ≠ "" := by
  cases v with
  | pnone => simp [pyTruthy] at h
  | pbool b =>
    cases b
    · simp [pyTruthy] at h
    · simp [pyStr]
  | pint n => exact intRepr_ne_empty n
  | pfloat f =>
    cases f with
    | finite q =>
      simp only [pyStr]
      by_cases hq : q.den = 1 <;>
        simp [hq, String.ext_iff, String.data_append]
    | nan => simp [pyStr]
    | inf neg => cases neg <;> simp [pyStr]
  | pstr s => simpa [pyTruthy] using h
  | pdict kvs => simp [pyStr]
  | plist xs => simp [pyStr]
  | pobj attrs => simp [pyStr]

/-- C3 counterexample: in `{"securityId": "1", "ltp": 0}` both fields
resolve per the spec's priority lists and the price value 0 is finite and
convertible, yet the source's `or`-chain skips the falsy 0 and falls
through to the absent `last` (yielding None), so NO tick is produced —
refuting both the claimed iff and the claimed `price 0 yields a tick`. -/
theorem c3_counterexample :
    specResolveField [("securityId", .pstr "1"), ("ltp", .pint 0)] SPEC_ID_FIELDS
      = some (.pstr "1") ∧
    specResolveField [("securityId", .pstr "1"), ("ltp", .pint 0)] SPEC_PRICE_FIELDS
      = some (.pint 0) ∧
    pyFloat (.pint 0) = some (.finite 0) ∧
    normalize (.structured (.pdict [("securityId", .pstr "1"), ("ltp", .pint 0)])) = none := by
  refine ⟨rfl, rfl, by simp [pyFloat], rfl⟩

/-- C3 (amended): a tick is produced iff the or-chain resolution yields a
truthy identifier and a price value other than None that `float()` accepts;
when produced, the tick's id is `str()` of the resolved identifier and its
price is the `float()` value. Finiteness is NOT checked (a NaN price yields
a tick), and a resolved price 0 survives only as the final fallback field
(`last` at top level), since the or-chain skips falsy values. -/
theorem c3_tick_iff :
    (∀ msg : Message,
      (normalize msg).isSome = true ↔
        (pyTruthy (extractRaw (decodeMessage msg)).1 = true ∧
         (extractRaw (decodeMessage msg)).2 ≠ .pnone ∧
         (pyFloat (extractRaw (decodeMessage msg)).2).isSome = true)) ∧
    (∀ (msg : Message) (sid : String) (v : FloatVal), normalize msg = some (sid, v) →
      sid = pyStr (extractRaw (decodeMessage msg)).1 ∧
      pyFloat (extractRaw (decodeMessage msg)).2 = some v) ∧
    normalize (.structured (.pdict [("securityId", .pstr "1"), ("ltp", .pfloat .nan)]))
      = some ("1", .nan) ∧
    normalize (.structured (.pdict [("securityId", .pstr "1"), ("last", .pint 0)]))
      = some ("1", .finite 0) := by
  have key : ∀ msg : Message,
      normalize msg
        = match pyFloat (extractRaw (decodeMessage msg)).2 with
          | some v =>
            if pyTruthy (extractRaw (decodeMessage msg)).1
            then some (pyStr (extractRaw (decodeMessage msg)).1, v)
            else none
          | none => none := by
    intro msg
    simp only [normalize, guardFloat_eq]
    generalize pyFloat (extractRaw (decodeMessage msg)).2 = o
    cases o with
    | none => rfl
    | some v =>
      by_cases hs : pyTruthy (extractRaw (decodeMessage msg)).1 = true
      · have hne : pyStr (extractRaw (decodeMessage msg)).1 ≠ "" :=
          pyStr_ne_empty_of_truthy _ hs
        simp only [hs, if_true, pyTruthy_pstr, pyStr_pstr]
        simp [hne]
      · simp only [Bool.not_eq_true] at hs
        simp [hs]
  refine ⟨fun msg => ?_, fun msg sid v h => ?_, ?_, ?_⟩
  · rw [key msg]
    generalize hf : pyFloat (extractRaw (decodeMessage msg)).2 = o
    cases o with
    | none => simp
    | some v =>
      have hne : (extractRaw (decodeMessage msg)).2 ≠ .pnone := by
        intro hh
        rw [hh] at hf
        simp [pyFloat] at hf
      by_cases hs : pyTruthy (extractRaw (decodeMessage msg)).1 = true <;>
        simp [hs, hne]
  · rw [key msg] at h
    generalize hf : pyFloat (extractRaw (decodeMessage msg)).2 = o at h ⊢
    cases o with
    | none => simp at h
    | some w =>
      by_cases hs : pyTruthy (extractRaw (decodeMessage msg)).1 = true
      · simp only [hs, if_true, Option.some.injEq, Prod.mk.injEq] at h
        exact ⟨h.1.symm, congrArg some h.2⟩
      · simp [hs] at h
  · rfl
  · simp [normalize, decodeMessage, extractRaw, dictGet, dictLookup, pyOr, pyTruthy, pyStr, pyFloat]

/-- Witness for C3 (amended) at a concrete input: a produced tick carries
`str()` of the resolved id and the `float()` of the resolved price. -/
theorem c3_witness :
    ("1" : String)
      = pyStr (extractRaw (decodeMessage
          (.structured (.pdict [("securityId", .pstr "1"), ("ltp", .pfloat (.finite 5))])))).1 ∧
    pyFloat (extractRaw (decodeMessage
          (.structured (.pdict [("securityId", .pstr "1"), ("ltp", .pfloat (.finite 5))])))).2
      = some (.finite 5) :=
  c3_tick_iff.2.1 (.structured (.pdict [("securityId", .pstr "1"), ("ltp", .pfloat (.finite 5))]))
    "1" (.finite 5) rfl

/-- C4 counterexample: the nested container resolves both fields per the
spec's (full) priority lists — `security_id` is in the spec's id list — yet
the source's nested fallback checks only `securityId`/`symbol`, so
`{"data": {"security_id": "1333", "ltp": 1700}}` yields NO tick. -/
theorem c4_counterexample :
    specResolveField [("security_id", .pstr "1333"), ("ltp", .pint 1700)] SPEC_ID_FIELDS
      = some (.pstr "1333") ∧
    specResolveField [("security_id", .pstr "1333"), ("ltp", .pint 1700)] SPEC_PRICE_FIELDS
      = some (.pint 1700) ∧
    normalize (.structured (.pdict
        [("data", .pdict [("security_id", .pstr "1333"), ("ltp", .pint 1700)])]))
      = none :=
  ⟨rfl, rfl, rfl⟩

/-- C4 (amended): when the id is absent at top level, normalization
recurses exactly one level into `data`/`payload`/`tick`/`update`, but with
SHORTENED priority lists — only `securityId`, `symbol` for the id and only
`lastTradedPrice`, `ltp` for the price. For truthy values, the supported
nested spellings and the top-level spelling are interchangeable (e.g.
`{"data": {"symbol": "1333", "ltp": 1700}}` yields the tick
`("1333", 1700)`). -/
theorem c4_nested_short_lists
    (c : String) (hc : c ∈ NESTED_KEYS) (sid v : PyVal)
    (hsid : pyTruthy sid = true) (hv : pyTruthy v = true) :
    normalize (.structured (.pdict
        [(c, .pdict [("securityId", sid), ("lastTradedPrice", v)])]))
      = normalize (.structured (.pdict [(c, .pdict [("symbol", sid), ("ltp", v)])])) ∧
    normalize (.structured (.pdict [(c, .pdict [("symbol", sid), ("ltp", v)])]))
      = normalize (.structured (.pdict [("securityId", sid), ("lastTradedPrice", v)])) := by
  simp only [NESTED_KEYS, List.mem_cons, List.mem_singleton, List.not_mem_nil, or_false] at hc
  rcases hc with rfl | rfl | rfl | rfl <;>
    constructor <;>
      simp [normalize, decodeMessage, extractRaw, scanNested, NESTED_KEYS, dictGet,
        dictLookup, pyOr, pyTruthy_pnone, hsid, hv]

/-- Witness for C4 (amended) at the spec's own example input. -/
theorem c4_witness :
    ("data" ∈ NESTED_KEYS) ∧
    pyTruthy (.pstr "1333") = true ∧ pyTruthy (.pint 1700) = true ∧
    (normalize (.structured (.pdict
          [("data", .pdict [("securityId", .pstr "1333"), ("lastTradedPrice", .pint 1700)])]))
        = normalize (.structured (.pdict
          [("data", .pdict [("symbol", .pstr "1333"), ("ltp", .pint 1700)])])) ∧
      normalize (.structured (.pdict
          [("data", .pdict [("symbol", .pstr "1333"), ("ltp", .pint 1700)])]))
        = normalize (.structured (.pdict
          [("securityId", .pstr "1333"), ("lastTradedPrice", .pint 1700)]))) ∧
    normalize (.structured (.pdict
        [("data", .pdict [("symbol", .pstr "1333"), ("ltp", .pint 1700)])]))
      = some ("1333", .finite ((1700 : ℤ) : ℚ)) :=
  ⟨by simp [NESTED_KEYS], by decide, by decide,
   c4_nested_short_lists "data" (by simp [NESTED_KEYS]) (.pstr "1333") (.pint 1700)
     (by decide) (by decide),
   rfl⟩

/-- C7 counterexample: the claim says attribute resolution is
first-match-wins over the same lists as for dicts, so an object with both
`securityId = "A"` and `symbol = "B"` should yield id "A"; the source's
loop has no break, so the LAST present attribute wins and the tick's id is
"B". Also the attribute id list lacks `"s"`: an object carrying only `s`
yields no tick. -/
theorem c7_counterexample :
    normalize (.structured (.pobj
        [("securityId", .pstr "A"), ("symbol", .pstr "B"), ("ltp", .pint 5)]))
      = some ("B", .finite ((5 : ℤ) : ℚ)) ∧
    ("B" : String) ≠ "A" ∧
    normalize (.structured (.pobj [("s", .pstr "X"), ("ltp", .pint 5)])) = none :=
  ⟨rfl, by decide, rfl⟩

/-- Splitting a name list splits the first-present search. -/
theorem firstPresent_append (attrs : List (String × PyVal)) (l1 l2 : List String) :
    firstPresent attrs (l1 ++ l2)
      = match firstPresent attrs l1 with
        | some v => some v
        | none => firstPresent attrs l2 := by
  induction l1 with
  | nil => rfl
  | cons n ns ih =>
    simp only [List.cons_append, firstPresent]
    cases attrFind attrs n with
    | some v => rfl
    | none => exact ih

/-- The source's no-break attribute loop computes the first present
attribute of the REVERSED name list (i.e. the last present one). -/
theorem attrScan_foldl (attrs : List (String × PyVal)) (names : List String) (init : PyVal) :
    names.foldl
        (fun acc n =>
          match attrFind attrs n with
          | some v => v
          | none => acc) init
      = match firstPresent attrs names.reverse with
        | some v => v
        | none => init := by
  induction names generalizing init with
  | nil => rfl
  | cons n ns ih =>
    rw [List.foldl_cons, ih]
    rw [List.reverse_cons, firstPresent_append]
    cases firstPresent attrs ns.reverse with
    | some v => rfl
    | none =>
      simp only [firstPresent]
      cases attrFind attrs n with
      | some v => rfl
      | none => rfl

theorem attrScan_eq_firstPresent (attrs : List (String × PyVal)) (names : List String) :
    attrScan attrs names = (firstPresent attrs names.reverse).getD .pnone := by
  rw [attrScan, attrScan_foldl]
  cases firstPresent attrs names.reverse <;> rfl

/-- C7 (amended): attribute-style resolution iterates
(`securityId`, `symbol`, `security_id`) for the id — note: no `"s"`, unlike
the dict path — and (`lastTradedPrice`, `ltp`, `last_price`, `last`) for
the price, assigning on every `hasattr` hit without a break, so the LAST
present attribute wins: the raw values are the first present attribute of
the reversed lists. -/
theorem c7_attr_last_match (attrs : List (String × PyVal)) :
    extractRaw (.pobj attrs)
      = ((firstPresent attrs ["security_id", "symbol", "securityId"]).getD .pnone,
         (firstPresent attrs ["last", "last_price", "ltp", "lastTradedPrice"]).getD .pnone) := by
  show (attrScan attrs ["securityId", "symbol", "security_id"],
        attrScan attrs ["lastTradedPrice", "ltp", "last_price", "last"]) = _
  rw [attrScan_eq_firstPresent, attrScan_eq_firstPresent]
  rfl

/-- C10: the extracted identifier is passed through `str()` (line 116)
before it is used as the `latest_ltp` key, the `_last_sent` key, and in
the comparison with `HDFC_ID` — so a message carrying the id as the int
1333 and one carrying it as the string "1333" are handled identically
(same cache entry, same throttle key, same friendly-name match), for any
price value and any state; and when `HDFC_ID = "1333"`, the produced send
call uses key "1333" with `friendly_name = "HDFC BANK"`. -/
theorem c10_str_id_key (cfg : Config) (env : SendEnv) (st : HState) (v : PyVal) :
    market_feed_handler cfg env st
        (.structured (.pdict [("securityId", .pint 1333), ("ltp", v)]))
      = market_feed_handler cfg env st
        (.structured (.pdict [("securityId", .pstr "1333"), ("ltp", v)])) ∧
    (cfg.HDFC_ID = "1333" →
      ((market_feed_handler cfg env st
          (.structured (.pdict [("securityId", .pint 1333), ("ltp", .pint 1700)]))).2.map
        fun c => (c.key, c.friendly_name))
        = some ("1333", some "HDFC BANK")) := by
  have hstr : pyStr (.pint 1333) = "1333" := rfl
  have htr : pyTruthy (.pint 1333) = true := by decide
  constructor
  · simp [market_feed_handler, decodeMessage, extractRaw, dictGet, dictLookup, pyOr,
      pyTruthy_pnone, htr, hstr, pyTruthy_pstr, pyStr_pstr]
  · intro h
    have htr2 : pyTruthy (.pint 1700) = true := by decide
    simp [market_feed_handler, decodeMessage, extractRaw, dictGet, dictLookup, pyOr,
      pyTruthy_pnone, htr, htr2, hstr, pyTruthy_pstr, pyStr_pstr, pyFloat, h]

/-- Witness for C10 at a concrete input. -/
theorem c10_witness :
    market_feed_handler cfgT ⟨0, 0, .response 200⟩ ⟨[], []⟩
        (.structured (.pdict [("securityId", .pint 1333), ("ltp", .pint 1700)]))
      = market_feed_handler cfgT ⟨0, 0, .response 200⟩ ⟨[], []⟩
        (.structured (.pdict [("securityId", .pstr "1333"), ("ltp", .pint 1700)])) ∧
    ((market_feed_handler cfgT ⟨0, 0, .response 200⟩ ⟨[], []⟩
        (.structured (.pdict [("securityId", .pint 1333), ("ltp", .pint 1700)]))).2.map
      fun c => (c.key, c.friendly_name))
      = some ("1333", some "HDFC BANK") :=
  ⟨(c10_str_id_key cfgT ⟨0, 0, .response 200⟩ ⟨[], []⟩ (.pint 1700)).1,
   (c10_str_id_key cfgT ⟨0, 0, .response 200⟩ ⟨[], []⟩ (.pint 1700)).2 rfl⟩

/-- C5 counterexample: two consecutive failed run attempts (run_forever
raising, caught and reported as started) sleep a fixed 1 second each — the
second delay is 1, not the doubled 2 the claimed exponential sequence
requires, because a started attempt resets the backoff (line 505) and
sleeps `time.sleep(1)` (line 506). -/
theorem c5_counterexample :
    (runLoop INITIAL_BACKOFF [.started true, .started true]).1 = [1, 1] ∧
    ([1, 1] : List ℚ) ≠ [1, 2] := by
  constructor
  · rfl
  · intro h
    rw [List.cons.injEq, List.cons.injEq] at h
    exact absurd h.2.1 (by norm_num)

theorem min_double_pow (k : ℕ) :
    min MAX_BACKOFF (min MAX_BACKOFF (2 ^ k) * 2) = min MAX_BACKOFF (2 ^ (k + 1)) := by
  have h2 : (2 : ℕ) ^ (k + 1) = 2 ^ k * 2 := pow_succ 2 k
  unfold MAX_BACKOFF
  omega

/-- The backoff recurrence in closed form: starting from `min 60 (2^k)`,
`n` consecutive unexpected loop errors sleep
`min 60 (2^k), min 60 (2^(k+1)), …` and leave backoff `min 60 (2^(k+n))`. -/
theorem runLoop_loopError_closed (n : ℕ) : ∀ k : ℕ,
    runLoop (min MAX_BACKOFF (2 ^ k)) (List.replicate n .loopError)
      = ((List.range n).map (fun i => ((min MAX_BACKOFF (2 ^ (k + i)) : ℕ) : ℚ)),
         min MAX_BACKOFF (2 ^ (k + n)), none) := by
  induction n with
  | zero => intro k; simp [runLoop]
  | succ n ih =>
    intro k
    have hpos : 0 < min MAX_BACKOFF (2 ^ k) := by
      have h1 : 0 < (2 : ℕ) ^ k := pow_pos (by norm_num) k
      have h2 : 0 < MAX_BACKOFF := by norm_num [MAX_BACKOFF]
      exact lt_min h2 h1
    have hmm : min MAX_BACKOFF (min MAX_BACKOFF (2 ^ k)) = min MAX_BACKOFF (2 ^ k) := by
      unfold MAX_BACKOFF
      omega
    have hstep : loopStep (min MAX_BACKOFF (2 ^ k)) .loopError
        = .cont ((min MAX_BACKOFF (2 ^ k) : ℕ) : ℚ) (min MAX_BACKOFF (2 ^ (k + 1))) := by
      rw [loopStep, if_pos hpos, min_double_pow, hmm]
    rw [List.replicate_succ]
    simp only [runLoop, hstep]
    rw [ih (k + 1)]
    simp only [Prod.mk.injEq]
    refine ⟨?_, ?_, trivial⟩
    · rw [List.range_succ_eq_map, List.map_cons, List.map_map]
      refine congrArg₂ List.cons (by rw [Nat.add_zero]) ?_
      refine List.map_congr_left fun i _ => ?_
      simp only [Function.comp_apply]
      have he : k + 1 + i = k + Nat.succ i := by omega
      rw [he]
    · have he : k + 1 + n = k + (n + 1) := by omega
      rw [he]

/-- C5 (amended): the exponential backoff 1, 2, 4, …, 60, 60, …
(non-decreasing, capped at `MAX_BACKOFF`) governs consecutive UNEXPECTED
errors reaching the loop's `except Exception` arm; a run attempt that was
invoked (even if `run_forever` raised, which `try_start_feed_instance`
reports as started) instead RESETS the backoff to `INITIAL_BACKOFF` and
sleeps a fixed 1 second, so consecutive run failures wait 1 s each, and
after any started attempt the next unexpected-error delay is 1 s again. -/
theorem c5_backoff_exponential :
    (∀ n : ℕ, (runLoop INITIAL_BACKOFF (List.replicate n .loopError)).1
        = (List.range n).map (fun k => ((min MAX_BACKOFF (2 ^ k) : ℕ) : ℚ))) ∧
    (∀ i j : ℕ, i ≤ j →
        ((min MAX_BACKOFF (2 ^ i) : ℕ) : ℚ) ≤ ((min MAX_BACKOFF (2 ^ j) : ℕ) : ℚ)) ∧
    (∀ n : ℕ, ∀ d ∈ (runLoop INITIAL_BACKOFF (List.replicate n .loopError)).1,
        d ≤ (MAX_BACKOFF : ℕ)) ∧
    (∀ (b : ℕ) (r : Bool), loopStep b (.started r) = .cont 1 INITIAL_BACKOFF) := by
  have hinit : INITIAL_BACKOFF = min MAX_BACKOFF (2 ^ 0) := by decide
  have hform : ∀ n : ℕ, (runLoop INITIAL_BACKOFF (List.replicate n .loopError)).1
      = (List.range n).map (fun k => ((min MAX_BACKOFF (2 ^ k) : ℕ) : ℚ)) := by
    intro n
    rw [hinit, runLoop_loopError_closed n 0]
    simp
  refine ⟨hform, fun i j hij => ?_, fun n d hd => ?_, fun b r => rfl⟩
  · exact_mod_cast min_le_min (le_refl MAX_BACKOFF)
      (Nat.pow_le_pow_right (by norm_num) hij)
  · rw [hform n] at hd
    obtain ⟨k, _, rfl⟩ := List.mem_map.mp hd
    exact_mod_cast min_le_left MAX_BACKOFF (2 ^ k)

/-- Witness for C5 (amended) at concrete inputs: seven consecutive loop
errors sleep 1, 2, 4, 8, 16, 32, 60 seconds, and consecutive delays are
non-decreasing. -/
theorem c5_witness :
    (runLoop INITIAL_BACKOFF (List.replicate 7 .loopError)).1
      = (List.range 7).map (fun k => ((min MAX_BACKOFF (2 ^ k) : ℕ) : ℚ)) ∧
    ((min MAX_BACKOFF (2 ^ 5) : ℕ) : ℚ) ≤ ((min MAX_BACKOFF (2 ^ 6) : ℕ) : ℚ) :=
  ⟨c5_backoff_exponential.1 7, c5_backoff_exponential.2.1 5 6 (by norm_num)⟩

/-- Every exit the retry loop itself can produce. -/
theorem runLoop_exit_reasons (events : List IterEvent) : ∀ (b : ℕ) (r : ExitReason),
    (runLoop b events).2.2 = some r →
    r = .instantiateFailed ∨ r = .noClassNoFallback ∨ r = .couldNotStart ∨ r = .interrupted := by
  induction events with
  | nil => intro b r h; simp [runLoop] at h
  | cons e es ih =>
    intro b r h
    cases e with
    | instFailed =>
      simp only [runLoop, loopStep, Option.some.injEq] at h
      exact Or.inl h.symm
    | noClassFallbackOk =>
      simp only [runLoop, loopStep] at h
      exact ih b r h
    | noClassNoFallback =>
      simp only [runLoop, loopStep, Option.some.injEq] at h
      exact Or.inr (Or.inl h.symm)
    | started runRaised =>
      simp only [runLoop, loopStep] at h
      exact ih INITIAL_BACKOFF r h
    | startedUnsupported =>
      simp only [runLoop, loopStep] at h
      exact ih b r h
    | notStarted =>
      simp only [runLoop, loopStep, Option.some.injEq] at h
      exact Or.inr (Or.inr (Or.inl h.symm))
    | interrupt =>
      simp only [runLoop, loopStep, Option.some.injEq] at h
      exact Or.inr (Or.inr (Or.inr h.symm))
    | loopError =>
      simp only [runLoop, loopStep] at h
      exact ih _ r h

/-- C6 counterexample: with both Dhan credentials set, a failed import of
`dhanhq` ends `start_market_feed` without any retry — an exit that is neither
an external shutdown signal nor a missing-credential error, refuting
`no other failure ends the loop`. Moreover the Telegram credentials are
not checked before connecting: with the bot token unset the loop still
runs (no exit after a started attempt), and the absence is only reported
per-send inside the Notifier, without terminating anything. -/
theorem c6_counterexample :
    start_market_feed (some "client") (some "token") false [] = (some .importFailed, []) ∧
    ExitReason.importFailed ≠ .interrupted ∧
    ExitReason.importFailed ≠ .missingDhanCreds ∧
    (start_market_feed (some "client") (some "token") true [.started false]).1 = none ∧
    send_telegram_message ⟨none, some "chat", "1333", 60⟩ ⟨100, 100, .response 200⟩
        [] "1333" (.finite 1)
      = ([], .missingCreds) := by
  refine ⟨?_, by decide, by decide, ?_, ?_⟩
  · simp [start_market_feed, truthyEnv]
  · simp [start_market_feed, truthyEnv, runLoop, loopStep]
  · norm_num [send_telegram_message, lookupQ, truthyEnv]

/-- C6 (amended): `start_market_feed` exits only on (a) missing Dhan
credentials — checked before the import and before any connection attempt —
(b) a failed `dhanhq` import, (c) `instantiate_feed_simple` returning no
feed, (d) no feed class with no working module fallback, (e) a start
attempt reported not-started (no runnable entrypoint, or `run_forever`
raising a ValueError), or (f) KeyboardInterrupt. The Telegram credentials
are NOT among the exit conditions: their absence is reported per send
inside the Notifier (after the throttle check) and is non-fatal. -/
theorem c6_exit_only_on :
    (∀ (cid tok : Option String) (imp : Bool) (events : List IterEvent) (r : ExitReason),
      (start_market_feed cid tok imp events).1 = some r →
        r = .missingDhanCreds ∨ r = .importFailed ∨ r = .instantiateFailed ∨
        r = .noClassNoFallback ∨ r = .couldNotStart ∨ r = .interrupted) ∧
    (∀ (cid tok : Option String) (imp : Bool) (events : List IterEvent),
      (¬ truthyEnv cid = true ∨ ¬ truthyEnv tok = true) →
      start_market_feed cid tok imp events = (some .missingDhanCreds, [])) ∧
    (∀ (cfg : Config) (env : SendEnv) (st : List (String × ℚ)) (key : String) (p : FloatVal),
      truthyEnv cfg.TELEGRAM_BOT_TOKEN = false →
      ¬ (env.now - lookupQ st key 0 < (cfg.SEND_INTERVAL_SECONDS : ℚ)) →
      send_telegram_message cfg env st key p = (st, .missingCreds)) := by
  refine ⟨fun cid tok imp events r h => ?_, fun cid tok imp events h => ?_,
    fun cfg env st key p h1 h2 => ?_⟩
  · unfold start_market_feed at h
    by_cases hc : ¬ truthyEnv cid = true ∨ ¬ truthyEnv tok = true
    · rw [if_pos hc] at h
      simp at h
      exact Or.inl h.symm
    · rw [if_neg hc] at h
      by_cases hi : ¬ imp = true
      · rw [if_pos hi] at h
        simp at h
        exact Or.inr (Or.inl h.symm)
      · rw [if_neg hi] at h
        simp only at h
        rcases runLoop_exit_reasons events INITIAL_BACKOFF r h with h' | h' | h' | h' <;>
          simp [h']
  · unfold start_market_feed
    rw [if_pos h]
  · simp [send_telegram_message, h1, h2]

/-- Witness for C6 (amended) at concrete inputs: a KeyboardInterrupt exit
is among the listed reasons, and a missing client id exits with the
missing-credentials report before consuming any loop events. -/
theorem c6_witness :
    (ExitReason.interrupted = .missingDhanCreds ∨ ExitReason.interrupted = .importFailed ∨
     ExitReason.interrupted = .instantiateFailed ∨ ExitReason.interrupted = .noClassNoFallback ∨
     ExitReason.interrupted = .couldNotStart ∨ ExitReason.interrupted = .interrupted) ∧
    start_market_feed none (some "token") true [.loopError, .interrupt]
      = (some .missingDhanCreds, []) :=
  ⟨c6_exit_only_on.1 (some "client") (some "token") true [.interrupt] .interrupted rfl,
   c6_exit_only_on.2.1 none (some "token") true [.loopError, .interrupt] (Or.inl (by decide))⟩

end DhanBot
